import Mathlib

/-!
Shallow embedding of FFmpeg's `libavfilter/af_silencedetect.c` (audio silence
detector) and proofs about its silence classification state machine.

Modelling conventions:
* C `double` values (noise ratio, minimum duration, `av_q2d(time_base)`) are
  modelled as exact rationals `ℚ`; `int64_t` values as `ℤ` (the counters and
  timestamps involved stay far below 2^63 in every statement below, so
  wrap-around is irrelevant).
* A C cast `(int64_t)x` of a `double` truncates toward zero; this is
  `truncToInt` below.
* The two per-channel arrays are nullable C pointers, modelled as
  `Option (List Int)`; `NULL` is `none`.  Reading through a valid pointer is
  `arrGet`, writing is `arrSet`.
* Event emission (`set_meta` + `av_log`) is modelled as an explicit list of
  emitted `Event`s returned alongside the updated context.
-/

namespace SilenceDetect

/-- Truncation of a rational toward zero, as performed by a C cast of a
`double` to `int64_t`. -/
def truncToInt (q : ℚ) : Int := if 0 ≤ q then ⌊q⌋ else ⌈q⌉

/-- The four sample formats the filter supports, plus a representative of any
other (unsupported) format value of the `AVSampleFormat` enum. -/
inductive AVSampleFormat where
  | dbl
  | flt
  | s32
  | s16
  | other
deriving DecidableEq, Repr

/-- An externally visible notification: `set_meta`/`av_log` of a
`silence_start`, or of a `silence_end` together with `silence_duration`.
The first field is the raw channel index used by `update`. -/
inductive Event where
  | silence_start (channel : Nat) (ts : Int)
  | silence_end (channel : Nat) (end_pts : Int) (duration_ts : Int)
deriving DecidableEq, Repr

/-- The filter's private state, struct `SilenceDetectContext`.
`silencedetect` is the per-format function pointer installed by
`config_input` (`none` models `NULL`). -/
structure SilenceDetectContext where
  noise : ℚ
  duration : ℚ
  mono : Bool
  independant_channels : Nat
  nb_null_samples : Option (List Int)
  start : Option (List Int)
  last_sample_rate : Int
  silencedetect : Option AVSampleFormat
deriving DecidableEq, Repr

/-- Read `a[i]` through a possibly-NULL pointer (the C code only ever reads
through valid pointers of length `independant_channels`). -/
def arrGet (a : Option (List Int)) (i : Nat) : Int :=
  (a.getD []).getD i 0

/-- Write `a[i] = v` through a possibly-NULL pointer. -/
def arrSet (a : Option (List Int)) (i : Nat) (v : Int) : Option (List Int) :=
  a.map (fun l => l.set i v)

/-- The function `update`: advance one channel's run state on one classified
sample and return the emitted events.  Mirrors lines 73-107 of the source:
channel selection by `current_sample % independant_channels`; a zero
`start[channel]` plays the role of "no onset recorded". -/
def update (s : SilenceDetectContext) (pts : Int) (is_silence : Bool)
    (current_sample : Nat) (nb_samples_notify : Int) (time_base : ℚ) :
    SilenceDetectContext × List Event :=
  let channel := current_sample % s.independant_channels
  if is_silence then
    if arrGet s.start channel = 0 then
      let n := arrGet s.nb_null_samples channel + 1
      let s1 := { s with nb_null_samples := arrSet s.nb_null_samples channel n }
      if n ≥ nb_samples_notify then
        let st := pts - truncToInt (s.duration / time_base + 1/2)
        ({ s1 with start := arrSet s1.start channel st },
         [Event.silence_start channel st])
      else
        (s1, [])
    else
      (s, [])
  else
    let evs :=
      if arrGet s.start channel ≠ 0 then
        [Event.silence_end channel pts (pts - arrGet s.start channel)]
      else
        []
    ({ s with nb_null_samples := arrSet s.nb_null_samples channel 0,
              start := arrSet s.start channel 0 }, evs)

/-- The sample classifier for the floating-point domains (`double`, `float`
sample values modelled as exact rationals): the condition
`*p < noise && *p > -noise` of the `SILENCE_DETECT` loop body. -/
def sampleIsSilent (x noise : ℚ) : Bool :=
  decide (x < noise) && decide (x > -noise)

/-- The sample classifier for the integer domains (`int32_t`, `int16_t`):
the condition `*p < noise && *p > -noise` with both sides of integer type. -/
def sampleIsSilentInt (x noise : Int) : Bool :=
  decide (x < noise) && decide (x > -noise)

/-- The shared per-sample loop shape of the four `SILENCE_DETECT`
instantiations, generalised to one explicit observation (pts, verdict) per
sample so that multi-frame sample sequences can be expressed: fold `update`
over the observations, incrementing the sample index `i`. -/
def run_updates (s : SilenceDetectContext) (obs : List (Int × Bool)) (i : Nat)
    (nb_samples_notify : Int) (time_base : ℚ) :
    SilenceDetectContext × List Event :=
  match obs with
  | [] => (s, [])
  | (pts, v) :: rest =>
    let r1 := update s pts v i nb_samples_notify time_base
    let r2 := run_updates r1.1 rest (i + 1) nb_samples_notify time_base
    (r2.1, r1.2 ++ r2.2)

/-- `silencedetect_dbl`: classify each `double` sample against `s.noise` and
feed the verdicts to `update`; within one frame every sample shares the
frame's `pts`. -/
def silencedetect_dbl (s : SilenceDetectContext) (pts : Int) (samples : List ℚ)
    (nb_samples_notify : Int) (time_base : ℚ) :
    SilenceDetectContext × List Event :=
  run_updates s (samples.map (fun p => (pts, sampleIsSilent p s.noise))) 0
    nb_samples_notify time_base

/-- `silencedetect_flt`: same loop over `float` samples (modelled as exact
rationals; the `double`-to-`float` narrowing of `noise` is the identity in
this exact-value model). -/
def silencedetect_flt (s : SilenceDetectContext) (pts : Int) (samples : List ℚ)
    (nb_samples_notify : Int) (time_base : ℚ) :
    SilenceDetectContext × List Event :=
  run_updates s (samples.map (fun p => (pts, sampleIsSilent p s.noise))) 0
    nb_samples_notify time_base

/-- `silencedetect_s32`: the local `const int32_t noise = s->noise` truncates
the (already domain-scaled) double threshold toward zero. -/
def silencedetect_s32 (s : SilenceDetectContext) (pts : Int)
    (samples : List Int) (nb_samples_notify : Int) (time_base : ℚ) :
    SilenceDetectContext × List Event :=
  run_updates s
    (samples.map (fun p => (pts, sampleIsSilentInt p (truncToInt s.noise)))) 0
    nb_samples_notify time_base

/-- `silencedetect_s16`: as `silencedetect_s32` at 16-bit sample type. -/
def silencedetect_s16 (s : SilenceDetectContext) (pts : Int)
    (samples : List Int) (nb_samples_notify : Int) (time_base : ℚ) :
    SilenceDetectContext × List Event :=
  run_updates s
    (samples.map (fun p => (pts, sampleIsSilentInt p (truncToInt s.noise)))) 0
    nb_samples_notify time_base

/-- `av_mallocz_array`: a zero-initialised array of `n` entries, or `NULL`
when the allocation fails; the success of the allocator call is an explicit
oracle argument `ok`. -/
def av_mallocz_array (ok : Bool) (n : Nat) : Option (List Int) :=
  if ok then some (List.replicate n 0) else none

/-- `AVERROR(ENOMEM)`: FFmpeg negates the POSIX error number (ENOMEM = 12). -/
def AVERROR_ENOMEM : Int := -12

/-- The format list advertised by `query_formats` (the `sample_fmts` array):
format negotiation admits exactly these four formats. -/
def query_formats_sample_fmts : List AVSampleFormat :=
  [AVSampleFormat.dbl, AVSampleFormat.flt, AVSampleFormat.s32,
   AVSampleFormat.s16]

/-- `config_input`: stream setup.  Sets `independant_channels`, allocates the
two per-channel arrays (failing with `AVERROR(ENOMEM)` and leaving the
context as mutated so far), then installs the per-format loop, scaling the
noise threshold for the integer domains.  The `switch` has no `default`
case, so any other format leaves the function pointer untouched and the
function still returns 0.  Returns the C return value and the context as
left by the call. -/
def config_input (s : SilenceDetectContext) (format : AVSampleFormat)
    (channels : Nat) (alloc1 alloc2 : Bool) : Int × SilenceDetectContext :=
  let s := { s with independant_channels := if s.mono then channels else 1 }
  let s := { s with
    nb_null_samples := av_mallocz_array alloc1 s.independant_channels }
  if s.nb_null_samples = none then
    (AVERROR_ENOMEM, s)
  else
    let s := { s with start := av_mallocz_array alloc2 s.independant_channels }
    if s.start = none then
      (AVERROR_ENOMEM, s)
    else
      let s :=
        match format with
        | AVSampleFormat.dbl => { s with silencedetect := some .dbl }
        | AVSampleFormat.flt => { s with silencedetect := some .flt }
        | AVSampleFormat.s32 =>
            { s with noise := s.noise * (2 ^ 31 - 1),
                     silencedetect := some .s32 }
        | AVSampleFormat.s16 =>
            { s with noise := s.noise * (2 ^ 15 - 1),
                     silencedetect := some .s16 }
        | AVSampleFormat.other => s
      (0, s)

/-- The interleaved sample data of one frame, in the numeric domain matching
the stream's negotiated format. -/
inductive FrameData where
  | dbl (xs : List ℚ)
  | flt (xs : List ℚ)
  | s32 (xs : List Int)
  | s16 (xs : List Int)
deriving DecidableEq, Repr

/-- An incoming audio frame: presentation timestamp plus interleaved sample
data (`nb_samples * nb_channels` sample slots). -/
structure AVFrame where
  pts : Int
  data : FrameData
deriving DecidableEq, Repr

/-- The rate-adaptation block of `filter_frame` (source lines 166-171):
when a previous sample rate exists and differs from the frame's, rescale
every channel's null-sample counter by `srate * n / last_sample_rate` in
truncating `int64_t` division (the array has exactly
`independant_channels` entries, so the C loop rewrites the whole array);
then record the new rate. -/
def rate_adapt (s : SilenceDetectContext) (srate : Int) :
    SilenceDetectContext :=
  let rescale : List Int → List Int :=
    fun l => l.map (fun n => Int.tdiv (srate * n) s.last_sample_rate)
  let s :=
    if s.last_sample_rate ≠ 0 ∧ s.last_sample_rate ≠ srate then
      { s with nb_null_samples := Option.map rescale s.nb_null_samples }
    else s
  { s with last_sample_rate := srate }

/-- The indirect call `s->silencedetect(...)`: dispatch through the function
pointer installed at configuration time.  Calling through a `NULL` pointer,
or with sample data whose layout does not match the installed loop, is
undefined behaviour in the C and is modelled as a no-op here; no theorem
relies on that branch. -/
def dispatch (s : SilenceDetectContext) (pts : Int) (data : FrameData)
    (nb_samples_notify : Int) (time_base : ℚ) :
    SilenceDetectContext × List Event :=
  match s.silencedetect, data with
  | some AVSampleFormat.dbl, FrameData.dbl xs =>
      silencedetect_dbl s pts xs nb_samples_notify time_base
  | some AVSampleFormat.flt, FrameData.flt xs =>
      silencedetect_flt s pts xs nb_samples_notify time_base
  | some AVSampleFormat.s32, FrameData.s32 xs =>
      silencedetect_s32 s pts xs nb_samples_notify time_base
  | some AVSampleFormat.s16, FrameData.s16 xs =>
      silencedetect_s16 s pts xs nb_samples_notify time_base
  | _, _ => (s, [])

/-- `filter_frame`: computes `nb_samples_notify = (int64_t)(srate * duration
* (mono ? 1 : nb_channels))` (double arithmetic truncated to `int64_t`),
runs the rate-adaptation block, and only then dispatches the frame's samples
through the installed per-format loop.  `sample_rate`, `nb_channels` and
`time_base` are properties of the input link. -/
def filter_frame (s : SilenceDetectContext) (sample_rate : Int)
    (nb_channels : Nat) (time_base : ℚ) (frame : AVFrame) :
    SilenceDetectContext × List Event :=
  let nb_samples_notify : Int :=
    truncToInt ((sample_rate : ℚ) * s.duration *
      (if s.mono then 1 else (nb_channels : ℚ)))
  dispatch (rate_adapt s sample_rate) frame.pts frame.data nb_samples_notify
    time_base

/-! ### Scenario helpers and basic lemmas -/

/-- A configured context tracking a single independent run (the layout
`config_input` produces in aggregate mode, or one channel's view in mono
mode): counter `n`, recorded start `st`. -/
def ctx1 (noise dur : ℚ) (n st : Int) (lsr : Int) : SilenceDetectContext :=
  { noise := noise, duration := dur, mono := false, independant_channels := 1,
    nb_null_samples := some [n], start := some [st], last_sample_rate := lsr,
    silencedetect := some AVSampleFormat.dbl }

/-- A run of `k` consecutive silent observations whose `j`-th element (from
offset `j0`) carries timestamp `p (j0 + j)`. -/
def silentObs (p : Nat → Int) (j0 : Nat) : Nat → List (Int × Bool)
  | 0 => []
  | k + 1 => (p j0, true) :: silentObs p (j0 + 1) k

/-- How many `silence_start` notifications a list of events contains. -/
def countStarts (evs : List Event) : Nat :=
  (evs.filter (fun e =>
    match e with
    | Event.silence_start _ _ => true
    | Event.silence_end _ _ _ => false)).length

theorem truncToInt_eq_floor {q : ℚ} (h : 0 ≤ q) : truncToInt q = ⌊q⌋ := by
  simp [truncToInt, h]

theorem silentObs_append (p : Nat → Int) (j0 a b : Nat) :
    silentObs p j0 (a + b) = silentObs p j0 a ++ silentObs p (j0 + a) b := by
  induction a generalizing j0 with
  | zero => simp [silentObs]
  | succ a ih =>
      have h1 : a + 1 + b = (a + b) + 1 := by omega
      have h2 : j0 + 1 + a = j0 + (a + 1) := by omega
      rw [h1]
      simp only [silentObs, List.cons_append]
      rw [ih (j0 + 1), h2]

theorem silentObs_length (p : Nat → Int) (j0 k : Nat) :
    (silentObs p j0 k).length = k := by
  induction k generalizing j0 with
  | zero => simp [silentObs]
  | succ k ih => simp [silentObs, ih]

theorem run_updates_append (s : SilenceDetectContext)
    (o1 o2 : List (Int × Bool)) (i : Nat) (N : Int) (tb : ℚ) :
    run_updates s (o1 ++ o2) i N tb =
      ((run_updates (run_updates s o1 i N tb).1 o2 (i + o1.length) N tb).1,
       (run_updates s o1 i N tb).2 ++
         (run_updates (run_updates s o1 i N tb).1 o2 (i + o1.length) N tb).2) := by
  induction o1 generalizing s i with
  | nil => simp [run_updates]
  | cons hd tl ih =>
      obtain ⟨pts, v⟩ := hd
      simp only [List.cons_append, run_updates, List.length_cons,
        List.append_eq]
      rw [ih]
      have h3 : i + 1 + tl.length = i + (tl.length + 1) := by omega
      rw [h3, List.append_assoc]

/-! Step lemmas: the four behaviours of `update` on a single-run context. -/

theorem update_ctx1_silent_below {ν d : ℚ} {n st N lsr : Int} {pts : Int}
    {i : Nat} {tb : ℚ} (hst : st = 0) (hlt : n + 1 < N) :
    update (ctx1 ν d n st lsr) pts true i N tb =
      (ctx1 ν d (n + 1) 0 lsr, []) := by
  subst hst
  simp [update, ctx1, arrGet, arrSet, Nat.mod_one, not_le.mpr hlt]

theorem update_ctx1_silent_cross {ν d : ℚ} {n st N lsr : Int} {pts : Int}
    {i : Nat} {tb : ℚ} (hst : st = 0) (hge : N ≤ n + 1) :
    update (ctx1 ν d n st lsr) pts true i N tb =
      (ctx1 ν d (n + 1) (pts - truncToInt (d / tb + 1/2)) lsr,
       [Event.silence_start 0 (pts - truncToInt (d / tb + 1/2))]) := by
  subst hst
  simp [update, ctx1, arrGet, arrSet, Nat.mod_one, hge]

theorem update_ctx1_silent_frozen {ν d : ℚ} {n st N lsr : Int} {pts : Int}
    {i : Nat} {tb : ℚ} (hst : st ≠ 0) :
    update (ctx1 ν d n st lsr) pts true i N tb = (ctx1 ν d n st lsr, []) := by
  simp [update, ctx1, arrGet, arrSet, Nat.mod_one, hst]

theorem update_ctx1_nonsilent_end {ν d : ℚ} {n st N lsr : Int} {pts : Int}
    {i : Nat} {tb : ℚ} (hst : st ≠ 0) :
    update (ctx1 ν d n st lsr) pts false i N tb =
      (ctx1 ν d 0 0 lsr, [Event.silence_end 0 pts (pts - st)]) := by
  simp [update, ctx1, arrGet, arrSet, Nat.mod_one, hst]

theorem update_ctx1_nonsilent_noend {ν d : ℚ} {n st N lsr : Int} {pts : Int}
    {i : Nat} {tb : ℚ} (hst : st = 0) :
    update (ctx1 ν d n st lsr) pts false i N tb = (ctx1 ν d 0 0 lsr, []) := by
  subst hst
  simp [update, ctx1, arrGet, arrSet, Nat.mod_one]

/-! Run lemmas: the behaviour of `run_updates` on whole silent runs. -/

theorem run_ctx1_silent_below {ν d : ℚ} {N lsr : Int} {tb : ℚ} (p : Nat → Int) :
    ∀ (k : Nat) (n : Int) (j0 i0 : Nat), n + k < N →
      run_updates (ctx1 ν d n 0 lsr) (silentObs p j0 k) i0 N tb =
        (ctx1 ν d (n + k) 0 lsr, []) := by
  intro k
  induction k with
  | zero => intro n j0 i0 _; simp [silentObs, run_updates]
  | succ k ih =>
      intro n j0 i0 h
      have hlt : n + 1 < N := by omega
      have hrec : (n + 1) + k < N := by omega
      simp only [silentObs, run_updates]
      rw [update_ctx1_silent_below rfl hlt]
      rw [ih (n + 1) (j0 + 1) (i0 + 1) hrec]
      have : n + 1 + k = n + (k + 1) := by omega
      rw [this]
      simp

theorem run_ctx1_silent_frozen {ν d : ℚ} {N lsr st : Int} {tb : ℚ}
    (p : Nat → Int) (hst : st ≠ 0) :
    ∀ (k : Nat) (n : Int) (j0 i0 : Nat),
      run_updates (ctx1 ν d n st lsr) (silentObs p j0 k) i0 N tb =
        (ctx1 ν d n st lsr, []) := by
  intro k
  induction k with
  | zero => intro n j0 i0; simp [silentObs, run_updates]
  | succ k ih =>
      intro n j0 i0
      simp only [silentObs, run_updates]
      rw [update_ctx1_silent_frozen hst, ih n (j0 + 1) (i0 + 1)]
      simp

/-- A silent run observed at a constant timestamp equal to the back-dated
offset `truncToInt (d / tb + 1/2)`: every observation at or above the notify
threshold re-fires the start notification with timestamp 0 and leaves the
recorded start at 0, so the counter keeps incrementing. -/
theorem run_ctx1_zero_onset {ν d : ℚ} {N lsr : Int} {tb : ℚ} :
    ∀ (k : Nat) (n : Int) (j0 i0 : Nat), N ≤ n + 1 →
      run_updates (ctx1 ν d n 0 lsr)
          (silentObs (fun _ => truncToInt (d / tb + 1/2)) j0 k) i0 N tb =
        (ctx1 ν d (n + k) 0 lsr,
         List.replicate k (Event.silence_start 0 0)) := by
  intro k
  induction k with
  | zero => intro n j0 i0 _; simp [silentObs, run_updates]
  | succ k ih =>
      intro n j0 i0 h
      simp only [silentObs, run_updates]
      rw [update_ctx1_silent_cross rfl h]
      rw [sub_self]
      rw [ih (n + 1) (j0 + 1) (i0 + 1) (by omega)]
      have : n + 1 + k = n + (k + 1) := by omega
      rw [this]
      simp [List.replicate_succ]

/-- A freshly allocated filter context with the option defaults
(`noise = 0.001`, `duration = 2`, `mono = 0`) and zero-initialised private
fields, as the host hands it to `config_input`. -/
def initCtx : SilenceDetectContext :=
  { noise := 1/1000, duration := 2, mono := false, independant_channels := 0,
    nb_null_samples := none, start := none, last_sample_rate := 0,
    silencedetect := none }

/-- C2: in every supported numeric domain a sample is classified silent
exactly when its signed value lies strictly inside the open interval
`(-threshold, +threshold)`; the rational classifier covers the two
floating-point domains and the integer classifier covers the two integer
domains. -/
theorem claim_C2 :
    (∀ x t : ℚ, sampleIsSilent x t = true ↔ (-t < x ∧ x < t)) ∧
    (∀ x t : Int, sampleIsSilentInt x t = true ↔ (-t < x ∧ x < t)) := by
  constructor
  · intro x t
    simp [sampleIsSilent, and_comm]
  · intro x t
    simp [sampleIsSilentInt, and_comm]

/-- C6: the rate-adaptation step never touches the recorded silence-start
array: for every context and every new sample rate, `rate_adapt` leaves
`start` (and in particular every confirmed onset timestamp) unchanged. -/
theorem claim_C6 :
    ∀ (s : SilenceDetectContext) (srate : Int),
      (rate_adapt s srate).start = s.start := by
  intro s srate
  by_cases h : s.last_sample_rate ≠ 0 ∧ s.last_sample_rate ≠ srate
  · simp [rate_adapt, h]
  · simp [rate_adapt, h]

/-- C8 counterexample: `config_input` reached with an unsupported sample
format (successful allocations) returns 0, i.e. success — the claim that
setup with an unsupported representation never returns success is false. -/
theorem claim_C8_cx :
    (config_input initCtx AVSampleFormat.other 2 true true).1 = 0 := by
  rfl

/-- C8 (amended): an unsupported sample representation cannot pass format
negotiation (the advertised `sample_fmts` list holds exactly the four
supported formats), and if `config_input` is nonetheless invoked with one it
returns success (0) while installing no per-format classifier — the format
`switch` has no `default` case and the function unconditionally returns 0. -/
theorem claim_C8_amended :
    AVSampleFormat.other ∉ query_formats_sample_fmts ∧
    (∀ (s : SilenceDetectContext) (channels : Nat),
      (config_input s AVSampleFormat.other channels true true).1 = 0 ∧
      (config_input s AVSampleFormat.other channels true true).2.silencedetect
        = s.silencedetect) := by
  constructor
  · decide
  · intro s channels
    constructor
    · simp [config_input, av_mallocz_array]
    · simp [config_input, av_mallocz_array]

/-- C9 counterexample: when the first per-channel array allocates but the
second fails, `config_input` returns `AVERROR(ENOMEM)` with the first
allocated array still referenced by the context — setup is not atomic, so
the claim that no allocated array remains referenced on the error return is
false. -/
theorem claim_C9_cx :
    (config_input initCtx AVSampleFormat.s16 1 true false).1 =
      AVERROR_ENOMEM ∧
    (config_input initCtx AVSampleFormat.s16 1 true false).2.nb_null_samples
      = some [0] := by
  constructor
  · rfl
  · rfl

/-- C9 (amended): either allocation failure makes `config_input` return
`AVERROR(ENOMEM)` before any classifier is installed; if the first
allocation fails no array is referenced, but if the second allocation fails
the first allocated (zero-filled, `independant_channels`-sized) array
remains referenced by the context, so the error return is not atomic. -/
theorem claim_C9_amended :
    (∀ (s : SilenceDetectContext) (fmt : AVSampleFormat) (ch : Nat)
        (a2 : Bool),
      (config_input s fmt ch false a2).1 = AVERROR_ENOMEM ∧
      (config_input s fmt ch false a2).2.nb_null_samples = none ∧
      (config_input s fmt ch false a2).2.start = s.start ∧
      (config_input s fmt ch false a2).2.silencedetect = s.silencedetect) ∧
    (∀ (s : SilenceDetectContext) (fmt : AVSampleFormat) (ch : Nat),
      (config_input s fmt ch true false).1 = AVERROR_ENOMEM ∧
      (config_input s fmt ch true false).2.nb_null_samples =
        some (List.replicate (if s.mono then ch else 1) 0) ∧
      (config_input s fmt ch true false).2.start = none ∧
      (config_input s fmt ch true false).2.silencedetect = s.silencedetect)
    := by
  constructor
  · intro s fmt ch a2
    refine ⟨?_, ?_, ?_, ?_⟩ <;> simp [config_input, av_mallocz_array]
  · intro s fmt ch
    refine ⟨?_, ?_, ?_, ?_⟩ <;> simp [config_input, av_mallocz_array]

theorem arrGet_arrSet_self (l : List Int) (i : Nat) (v : Int)
    (h : i < l.length) : arrGet (arrSet (some l) i v) i = v := by
  simp [arrGet, arrSet, List.getD_eq_getElem?_getD, List.getElem?_set_self, h]

theorem tdiv_eq_floor (a b : Int) (ha : 0 ≤ a) (hb : 0 < b) :
    Int.tdiv a b = ⌊(a : ℚ) / (b : ℚ)⌋ := by
  obtain ⟨m, rfl⟩ : ∃ m : ℕ, b = (m : ℤ) :=
    ⟨b.toNat, (Int.toNat_of_nonneg hb.le).symm⟩
  rw [Int.tdiv_eq_ediv ha (by positivity)]
  rw [show (((m : ℤ) : ℚ)) = ((m : ℕ) : ℚ) by push_cast; ring]
  exact (Rat.floor_intCast_div_natCast a m).symm

/-- C3: whenever a silent sample makes a channel's counter reach the notify
threshold while no onset is recorded, the recorded onset timestamp (and the
timestamp of the emitted start notification) equals the current frame's
`pts` minus `duration / time_base` rounded to the nearest integer tick
(half-up, i.e. `⌊duration / time_base + 1/2⌋`). -/
theorem claim_C3 (s : SilenceDetectContext) (pts : Int) (i : Nat) (N : Int)
    (tb : ℚ) (st : List Int)
    (hst : s.start = some st)
    (hlen : st.length = s.independant_channels)
    (hpos : 0 < s.independant_channels)
    (h0 : arrGet s.start (i % s.independant_channels) = 0)
    (hcross :
      N ≤ arrGet s.nb_null_samples (i % s.independant_channels) + 1)
    (hd : 0 ≤ s.duration) (htb : 0 < tb) :
    (update s pts true i N tb).2 =
      [Event.silence_start (i % s.independant_channels)
        (pts - ⌊s.duration / tb + 1/2⌋)] ∧
    arrGet (update s pts true i N tb).1.start
        (i % s.independant_channels) = pts - ⌊s.duration / tb + 1/2⌋ := by
  have hch : i % s.independant_channels < st.length := by
    rw [hlen]
    exact Nat.mod_lt _ hpos
  have hq : (0 : ℚ) ≤ s.duration / tb + 1/2 := by
    have := div_nonneg hd htb.le
    linarith
  have htr : truncToInt (s.duration / tb + 1/2) = ⌊s.duration / tb + 1/2⌋ :=
    truncToInt_eq_floor hq
  constructor
  · simp only [update, h0, if_pos, ge_iff_le, hcross, if_true, ite_true]
    rw [htr]
  · simp only [update, h0, if_pos, ge_iff_le, hcross, if_true, ite_true]
    rw [htr, hst]
    exact arrGet_arrSet_self st _ _ hch

/-- C4: a silent run strictly shorter than the notify threshold followed by
a non-silent sample produces no events at all, and the non-silent sample
resets both the counter and the recorded onset to zero. -/
theorem claim_C4 (ν d tb : ℚ) (lsr : Int) (Nn k : Nat) (p : Nat → Int)
    (q : Int) (hk : k < Nn) :
    run_updates (ctx1 ν d 0 0 lsr) (silentObs p 0 k ++ [(q, false)]) 0
        ((Nn : Nat) : Int) tb =
      (ctx1 ν d 0 0 lsr, []) := by
  rw [run_updates_append]
  rw [run_ctx1_silent_below p k 0 0 0 (by omega)]
  simp only [run_updates]
  rw [update_ctx1_nonsilent_noend rfl]
  simp [run_updates]

/-- C5: the rate adapter. When a previous sample rate exists and differs
from the frame's, every channel counter is rescaled to
`floor(newRate * count / oldRate)` and the recorded rate becomes the new
one; when the previous rate is zero or unchanged the counters are left
alone; and `filter_frame` always runs the adapter before dispatching the
frame's samples to the per-format loop. -/
theorem claim_C5 (s : SilenceDetectContext) (srate : Int) (ns : List Int)
    (hns : s.nb_null_samples = some ns)
    (h0 : s.last_sample_rate ≠ 0) (hne : s.last_sample_rate ≠ srate)
    (hpos : 0 < s.last_sample_rate) (hsr : 0 ≤ srate)
    (hnn : ∀ n ∈ ns, 0 ≤ n) :
    (rate_adapt s srate).nb_null_samples =
      some (ns.map (fun n =>
        ⌊((srate * n : Int) : ℚ) / ((s.last_sample_rate : Int) : ℚ)⌋)) ∧
    (rate_adapt s srate).last_sample_rate = srate ∧
    (∀ (s2 : SilenceDetectContext) (r2 : Int),
      s2.last_sample_rate = 0 ∨ s2.last_sample_rate = r2 →
        (rate_adapt s2 r2).nb_null_samples = s2.nb_null_samples) ∧
    (∀ (nb_channels : Nat) (tb : ℚ) (frame : AVFrame),
      filter_frame s srate nb_channels tb frame =
        dispatch (rate_adapt s srate) frame.pts frame.data
          (truncToInt ((srate : ℚ) * s.duration *
            (if s.mono then 1 else (nb_channels : ℚ)))) tb) := by
  refine ⟨?_, ?_, ?_, ?_⟩
  · have hcond : s.last_sample_rate ≠ 0 ∧ s.last_sample_rate ≠ srate :=
      ⟨h0, hne⟩
    simp only [rate_adapt, if_pos hcond, hns, Option.map_some']
    congr 1
    apply List.map_congr_left
    intro n hn
    exact tdiv_eq_floor (srate * n) s.last_sample_rate
      (mul_nonneg hsr (hnn n hn)) hpos
  · by_cases h : s.last_sample_rate ≠ 0 ∧ s.last_sample_rate ≠ srate
    · simp [rate_adapt, h]
    · simp [rate_adapt, h]
  · intro s2 r2 h
    have hcond : ¬ (s2.last_sample_rate ≠ 0 ∧ s2.last_sample_rate ≠ r2) := by
      tauto
    simp [rate_adapt, hcond]
  · intro nb_channels tb frame
    rfl

/-- C1 counterexample: with duration 0 and time base 1 the back-dated onset
offset is 0, so silent samples observed at pts 0 store a zero onset; with
notify threshold 2, three such silent samples from a fresh channel fire the
start notification twice — not exactly once. -/
theorem claim_C1_cx :
    countStarts
      ((run_updates (ctx1 (1/1000) 0 0 0 0) (silentObs (fun _ => 0) 0 3) 0 2
        1).2) = 2 := by
  have hD : truncToInt ((0 : ℚ) / 1 + 1/2) = 0 := by
    rw [truncToInt_eq_floor (by norm_num)]
    norm_num
  have hp : (fun (_ : Nat) => (0 : Int)) =
      (fun (_ : Nat) => truncToInt ((0 : ℚ) / 1 + 1/2)) := by
    funext j
    rw [hD]
  rw [hp]
  rw [show (3 : Nat) = 1 + 2 from rfl, silentObs_append, run_updates_append]
  rw [run_ctx1_silent_below _ 1 0 0 0 (by norm_num)]
  rw [run_ctx1_zero_onset 2 (0 + ((1 : Nat) : Int)) _ _ (by norm_num)]
  simp [countStarts]

/-- C1 (amended): from a fresh channel (counter 0, no onset), a run of `k`
silent samples fires the start notification exactly once, at the sample
where the counter reaches exactly the notify threshold `Nn` (never sooner,
never again during the run) — provided the threshold is at least 1 and the
back-dated onset timestamp of the crossing sample is nonzero (otherwise the
zero sentinel of `start` makes the code re-notify, see the counterexample
and C10). -/
theorem claim_C1_amended (ν d tb : ℚ) (lsr : Int) (Nn k : Nat)
    (p : Nat → Int) (h1 : 1 ≤ Nn)
    (hcross : p (Nn - 1) ≠ truncToInt (d / tb + 1/2)) :
    (run_updates (ctx1 ν d 0 0 lsr) (silentObs p 0 k) 0 ((Nn : Nat) : Int)
        tb).2 =
      (if Nn ≤ k then
        [Event.silence_start 0 (p (Nn - 1) - truncToInt (d / tb + 1/2))]
      else []) := by
  by_cases hk : Nn ≤ k
  · rw [if_pos hk]
    rw [show k = (Nn - 1) + ((k - Nn) + 1) from by omega, silentObs_append,
      run_updates_append]
    rw [run_ctx1_silent_below p (Nn - 1) 0 0 0 (by omega)]
    simp only [silentObs, run_updates, Nat.zero_add]
    rw [update_ctx1_silent_cross rfl (by omega)]
    have hS : p (Nn - 1) - truncToInt (d / tb + 1/2) ≠ 0 :=
      sub_ne_zero.mpr hcross
    rw [run_ctx1_silent_frozen p hS (k - Nn) _ _ _]
    simp
  · rw [if_neg hk]
    rw [run_ctx1_silent_below p k 0 0 0 (by omega)]

/-- C7: for a fresh channel fed exactly `Nn + K` silent samples with
uniformly spaced timestamps `p0 + j*dt` and then one non-silent sample at
the next timestamp, exactly one start and one end event are emitted, the
reported duration is `endTs - startTs`, and that duration equals the
elapsed ticks from the threshold-crossing observation over the `K`
additional silent samples to the terminating observation (`(K+1)*dt`) plus
the notify-threshold's worth of ticks (the back-dating offset
`truncToInt (d / tb + 1/2)`). -/
theorem claim_C7 (ν d tb : ℚ) (lsr p0 dt : Int) (Nn K : Nat)
    (h1 : 1 ≤ Nn)
    (hcross : p0 + ((Nn : Int) - 1) * dt ≠ truncToInt (d / tb + 1/2)) :
    run_updates (ctx1 ν d 0 0 lsr)
        (silentObs (fun j => p0 + (j : Int) * dt) 0 (Nn + K) ++
          [(p0 + ((Nn : Int) + (K : Int)) * dt, false)]) 0
        ((Nn : Nat) : Int) tb =
      (ctx1 ν d 0 0 lsr,
       [Event.silence_start 0
          (p0 + ((Nn : Int) - 1) * dt - truncToInt (d / tb + 1/2)),
        Event.silence_end 0 (p0 + ((Nn : Int) + (K : Int)) * dt)
          ((p0 + ((Nn : Int) + (K : Int)) * dt) -
            (p0 + ((Nn : Int) - 1) * dt - truncToInt (d / tb + 1/2)))]) ∧
    (p0 + ((Nn : Int) + (K : Int)) * dt) -
        (p0 + ((Nn : Int) - 1) * dt - truncToInt (d / tb + 1/2)) =
      ((K : Int) + 1) * dt + truncToInt (d / tb + 1/2) := by
  have hc : ((Nn - 1 : Nat) : Int) = (Nn : Int) - 1 := by omega
  constructor
  · rw [run_updates_append]
    rw [show Nn + K = (Nn - 1) + (K + 1) from by omega, silentObs_append,
      run_updates_append]
    rw [run_ctx1_silent_below _ (Nn - 1) 0 0 0 (by omega)]
    simp only [silentObs, run_updates, Nat.zero_add]
    rw [update_ctx1_silent_cross rfl (by omega)]
    rw [hc]
    have hS : p0 + ((Nn : Int) - 1) * dt - truncToInt (d / tb + 1/2) ≠ 0 :=
      sub_ne_zero.mpr hcross
    rw [run_ctx1_silent_frozen _ hS K _ _ _]
    simp only [run_updates]
    rw [update_ctx1_nonsilent_end hS]
    simp
  · ring

/-- C10: the zero `start` value doubles as the "no onset" sentinel, so when
every silent sample arrives at pts equal to the back-dating offset
`truncToInt (d / tb + 1/2)` (making the computed onset exactly tick 0), a
fresh channel fed `Nn + K` such samples keeps incrementing its counter,
re-fires the start notification on every sample at or above the threshold
(`K + 1` notifications in total), and a following non-silent sample emits
no end event — it merely resets the channel. -/
theorem claim_C10 (ν d tb : ℚ) (lsr : Int) (Nn K : Nat) (q : Int)
    (h1 : 1 ≤ Nn) :
    run_updates (ctx1 ν d 0 0 lsr)
        (silentObs (fun _ => truncToInt (d / tb + 1/2)) 0 (Nn + K)) 0
        ((Nn : Nat) : Int) tb =
      (ctx1 ν d ((Nn : Int) + (K : Int)) 0 lsr,
       List.replicate (K + 1) (Event.silence_start 0 0)) ∧
    run_updates (ctx1 ν d 0 0 lsr)
        (silentObs (fun _ => truncToInt (d / tb + 1/2)) 0 (Nn + K) ++
          [(q, false)]) 0 ((Nn : Nat) : Int) tb =
      (ctx1 ν d 0 0 lsr,
       List.replicate (K + 1) (Event.silence_start 0 0)) := by
  have hmain :
      run_updates (ctx1 ν d 0 0 lsr)
          (silentObs (fun _ => truncToInt (d / tb + 1/2)) 0 (Nn + K)) 0
          ((Nn : Nat) : Int) tb =
        (ctx1 ν d ((Nn : Int) + (K : Int)) 0 lsr,
         List.replicate (K + 1) (Event.silence_start 0 0)) := by
    rw [show Nn + K = (Nn - 1) + (K + 1) from by omega, silentObs_append,
      run_updates_append]
    rw [run_ctx1_silent_below _ (Nn - 1) 0 0 0 (by omega)]
    rw [run_ctx1_zero_onset (K + 1) (0 + ((Nn - 1 : Nat) : Int)) _ _
      (by omega)]
    have hcnt : (0 : Int) + ((Nn - 1 : Nat) : Int) + ((K + 1 : Nat) : Int) =
        (Nn : Int) + (K : Int) := by
      push_cast
      omega
    rw [hcnt]
    simp
  refine ⟨hmain, ?_⟩
  rw [run_updates_append, hmain]
  simp only [run_updates]
  rw [update_ctx1_nonsilent_noend rfl]
  simp

/-! ### Witnesses: the hypothesis-carrying theorems applied at concrete
inputs. -/

/-- Witness for C1 (amended) at threshold 2, run length 3, pts `100 + j`,
duration 0, time base 1. -/
theorem claim_C1_witness :
    (run_updates (ctx1 (1/1000) 0 0 0 0)
        (silentObs (fun j => 100 + (j : Int)) 0 3) 0 (((2 : Nat)) : Int)
        1).2 =
      (if (2 : Nat) ≤ 3 then
        [Event.silence_start 0
          ((100 + (((2 : Nat) - 1 : Nat) : Int)) -
            truncToInt ((0 : ℚ) / 1 + 1/2))]
      else []) :=
  claim_C1_amended (1/1000) 0 1 0 2 3 (fun j => 100 + (j : Int))
    (by decide)
    (by
      rw [truncToInt_eq_floor (by norm_num)]
      norm_num)

/-- Witness for C3: counter 5 crossing threshold 6 at pts 100, duration 2,
time base 1. -/
theorem claim_C3_witness :
    (update (ctx1 (1/2) 2 5 0 7) 100 true 3 6 1).2 =
      [Event.silence_start 0 (100 - ⌊(2 : ℚ) / 1 + 1/2⌋)] ∧
    arrGet (update (ctx1 (1/2) 2 5 0 7) 100 true 3 6 1).1.start 0 =
      100 - ⌊(2 : ℚ) / 1 + 1/2⌋ :=
  claim_C3 (ctx1 (1/2) 2 5 0 7) 100 3 6 1 [0] rfl rfl (by decide)
    (by decide) (by decide) (show (0 : ℚ) ≤ 2 by norm_num)
    (show (0 : ℚ) < 1 by norm_num)

/-- Witness for C4: two silent samples under threshold 3, then a non-silent
one — no events, counters reset. -/
theorem claim_C4_witness :
    run_updates (ctx1 (1/1000) 2 0 0 0)
        (silentObs (fun j => (j : Int)) 0 2 ++ [((9 : Int), false)]) 0
        (((3 : Nat)) : Int) 1 =
      (ctx1 (1/1000) 2 0 0 0, []) :=
  claim_C4 (1/1000) 2 1 0 3 2 (fun j => (j : Int)) 9 (by decide)

/-- Witness for C5: counter 7, old rate 2, new rate 3 —
`floor(3*7/2) = 10`. -/
theorem claim_C5_witness :
    (rate_adapt (ctx1 (1/1000) 2 7 0 2) 3).nb_null_samples =
      some ([7].map (fun n =>
        ⌊((3 * n : Int) : ℚ) / (((2 : Int)) : ℚ)⌋)) ∧
    (rate_adapt (ctx1 (1/1000) 2 7 0 2) 3).last_sample_rate = 3 ∧
    (∀ (s2 : SilenceDetectContext) (r2 : Int),
      s2.last_sample_rate = 0 ∨ s2.last_sample_rate = r2 →
        (rate_adapt s2 r2).nb_null_samples = s2.nb_null_samples) ∧
    (∀ (nb_channels : Nat) (tb : ℚ) (frame : AVFrame),
      filter_frame (ctx1 (1/1000) 2 7 0 2) 3 nb_channels tb frame =
        dispatch (rate_adapt (ctx1 (1/1000) 2 7 0 2) 3) frame.pts frame.data
          (truncToInt (((3 : Int) : ℚ) * (2 : ℚ) *
            (if (ctx1 (1/1000) 2 7 0 2).mono then 1
             else (nb_channels : ℚ)))) tb) :=
  claim_C5 (ctx1 (1/1000) 2 7 0 2) 3 [7] rfl (by decide) (by decide)
    (by decide) (by decide) (by decide)

/-- Witness for C7: threshold 2, one extra silent sample (`K = 1`), sample
spacing 10 ticks, duration 2, time base 1. -/
theorem claim_C7_witness :
    run_updates (ctx1 (1/1000) 2 0 0 0)
        (silentObs (fun j => 0 + (j : Int) * 10) 0 (2 + 1) ++
          [(0 + (((2 : Nat) : Int) + ((1 : Nat) : Int)) * 10, false)]) 0
        (((2 : Nat)) : Int) 1 =
      (ctx1 (1/1000) 2 0 0 0,
       [Event.silence_start 0
          (0 + (((2 : Nat) : Int) - 1) * 10 -
            truncToInt ((2 : ℚ) / 1 + 1/2)),
        Event.silence_end 0 (0 + (((2 : Nat) : Int) + ((1 : Nat) : Int)) * 10)
          ((0 + (((2 : Nat) : Int) + ((1 : Nat) : Int)) * 10) -
            (0 + (((2 : Nat) : Int) - 1) * 10 -
              truncToInt ((2 : ℚ) / 1 + 1/2)))]) ∧
    (0 + (((2 : Nat) : Int) + ((1 : Nat) : Int)) * 10) -
        (0 + (((2 : Nat) : Int) - 1) * 10 -
          truncToInt ((2 : ℚ) / 1 + 1/2)) =
      (((1 : Nat) : Int) + 1) * 10 + truncToInt ((2 : ℚ) / 1 + 1/2) :=
  claim_C7 (1/1000) 2 1 0 0 10 2 1 (by decide)
    (by
      rw [truncToInt_eq_floor (by norm_num)]
      norm_num)

/-- Witness for C10: threshold 2, one extra silent sample, duration 0 and
time base 1 so every pts equals the (zero) back-dating offset. -/
theorem claim_C10_witness :
    run_updates (ctx1 (1/1000) 0 0 0 0)
        (silentObs (fun _ => truncToInt ((0 : ℚ) / 1 + 1/2)) 0 (2 + 1)) 0
        (((2 : Nat)) : Int) 1 =
      (ctx1 (1/1000) 0 (((2 : Nat) : Int) + ((1 : Nat) : Int)) 0 0,
       List.replicate (1 + 1) (Event.silence_start 0 0)) ∧
    run_updates (ctx1 (1/1000) 0 0 0 0)
        (silentObs (fun _ => truncToInt ((0 : ℚ) / 1 + 1/2)) 0 (2 + 1) ++
          [((5 : Int), false)]) 0 (((2 : Nat)) : Int) 1 =
      (ctx1 (1/1000) 0 0 0 0,
       List.replicate (1 + 1) (Event.silence_start 0 0)) :=
  claim_C10 (1/1000) 0 1 0 2 1 5 (by decide)

end SilenceDetect
